import Mathlib

/-!
Verification of the PyLivestream core (`src/PyLivestream/stream.py`):
a shallow embedding of the bitrate tables, the bitrate selector
`Stream.video_bitrate`, the argument-fragment builders (`videostream`,
`audiostream`, `filein`, `screengrab`, `webcam`, `buffer`), the
video-source dispatch of `Stream.osparam`, and the reconciler
`unify_streams`, together with theorems settling the specification
claims about them.

Modelling conventions: Python `None`-able fields become `Option`;
Python truthiness (`if self.video_kbps:`) is made explicit
(`truthyInt`, `falsyStr`); raised exceptions become `Except.error`;
the ambient `sys.platform` becomes an explicit `platform` field;
path expansion (`expanduser`) is the identity, since path handling is
an external concern.
-/

namespace PyLivestream

/-- The ≤30 fps bitrate table `BR30` from stream.py
(height in pixels ↦ video kbps), in source order. -/
def BR30 : List (Int × Int) :=
  [(240, 300), (360, 400), (480, 500), (540, 800),
   (720, 1800), (1080, 3000), (1440, 6000), (2160, 13000)]

/-- The >30 fps bitrate table `BR60` from stream.py. -/
def BR60 : List (Int × Int) :=
  [(720, 2250), (1080, 4500), (1440, 9000), (2160, 20000)]

/-- Python `bisect.bisect_left` on a sorted list: the leftmost index
whose element is ≥ `x` (equivalently, the number of elements < `x`
for a sorted list, which all the call sites pass). -/
def bisect_left : List Int → Int → Nat
  | [], _ => 0
  | y :: ys, x => if y < x then bisect_left ys x + 1 else 0

/-- Python truthiness of an optional int (`None` and `0` are falsy). -/
def truthyInt : Option Int → Bool
  | none => false
  | some v => v != 0

/-- Python falsiness of an optional string (`None` and `''` are falsy). -/
def falsyStr : Option String → Bool
  | none => true
  | some s => s == ""

/-- Python `str()` of an optional int (`str(None) = "None"`). -/
def pyOStr : Option Int → String
  | none => "None"
  | some v => toString v

/-- The mutable per-plan state of `Stream` after `osparam`:
constructor arguments, resolved configuration fields, and the
`video_kbps` slot filled in by `video_bitrate`.  `platform` is the
injected `sys.platform` value. -/
structure Stream where
  vidsource : String
  image : Option String
  loop : Bool
  infn : Option String
  res : Option (Int × Int)
  fps : Option Int
  video_kbps : Option Int
  audio_bps : String
  audiofs : String
  acap : Option String
  audiochan : Option String
  preset : String
  keyframe_sec : Int
  vcap : String
  hcam : String
  videochan : String
  origin : Option (String × String)
  platform : String
  deriving DecidableEq, Repr

/-- `list(tbl.values())[bisect.bisect_left(list(tbl.keys()), x)]`:
the bitrate lookup shared by both branches of `video_bitrate`.
`none` is Python's IndexError (index = length, past the last entry). -/
def lookupBR (tbl : List (Int × Int)) (x : Int) : Option Int :=
  (tbl.map Prod.snd)[bisect_left (tbl.map Prod.fst) x]?

/-- `Stream.video_bitrate`: return unchanged when `video_kbps` is
truthy (per-site override); otherwise take the height from `res[1]`
(or assume 720 for a file source with unknown resolution), select
`BR30` when `fps` is `None` or ≤ 30 and `BR60` otherwise, and fill
`video_kbps` by left-bisect lookup.  An out-of-table height is
Python's IndexError; a missing height (no `res`, non-file source) is
Python's NameError on `x`. -/
def video_bitrate (s : Stream) : Except String Stream :=
  if truthyInt s.video_kbps then Except.ok s
  else
    match (match s.res with
           | some r => some r.2
           | none => if s.vidsource = "file" then some 720 else none) with
    | none => Except.error "NameError: name x is not defined"
    | some x =>
      let tbl := match s.fps with
        | none => BR30
        | some f => if f ≤ 30 then BR30 else BR60
      match lookupBR tbl x with
      | none => Except.error "IndexError: list index out of range"
      | some v => Except.ok { s with video_kbps := some v }

/-- `Stream.audiostream`: no flags when `audio_bps`, `acap` or
`audiochan` is falsy, or for a file source; otherwise the four tokens
`['-f', acap, '-i', audiochan]`. -/
def audiostream (s : Stream) : List String :=
  if s.audio_bps == "" || falsyStr s.acap || falsyStr s.audiochan then []
  else if s.vidsource ≠ "file" then
    ["-f", s.acap.getD "", "-i", s.audiochan.getD ""]
  else []

/-- `Stream.audiocomp`: the AAC codec flags, under the same guard as
`audiostream`. -/
def audiocomp (s : Stream) : List String :=
  if s.audio_bps == "" || falsyStr s.acap || falsyStr s.audiochan then []
  else ["-c:a", "aac", "-b:a", s.audio_bps, "-ar", s.audiofs]

/-- `Stream.filein`: input flags for a file source.  `-loop 1` for a
still image else `-re`; `-stream_loop -1` when looping; the image as
an extra input when present; the media file as the final input.  The
`assert isinstance(self.infn, Path)` becomes an error on a missing
`infn`. -/
def filein (s : Stream) : Except String (List String) :=
  match s.infn with
  | none => Except.error "AssertionError: infn is not a Path"
  | some fn =>
    let vid1 := if !falsyStr s.image then ["-loop", "1"] else ["-re"]
    let vid1 := if s.loop then vid1 ++ ["-stream_loop", "-1"] else vid1
    let vid1 := if !falsyStr s.image then vid1 ++ ["-i", s.image.getD ""]
                else vid1
    Except.ok (vid1 ++ ["-i", fn])

/-- `Stream.screengrab`: desktop-capture input flags, branching on the
platform; a missing `origin` where a branch reads it is Python's
AttributeError. -/
def screengrab (s : Stream) : Except String (List String) :=
  let vid1 := ["-f", s.vcap, "-r", pyOStr s.fps]
  let vid1 := match s.res with
    | some r => vid1 ++ ["-s", toString r.1 ++ "x" ++ toString r.2]
    | none => vid1
  if s.platform = "linux" then
    match s.origin with
    | none => Except.error "AttributeError: origin"
    | some o => Except.ok (vid1 ++ ["-i", ":0.0+" ++ o.1 ++ "," ++ o.2])
  else if s.platform = "win32" then
    match s.origin with
    | none => Except.error "AttributeError: origin"
    | some o =>
      Except.ok (vid1 ++ ["-offset_x", o.1, "-offset_y", o.2,
                          "-i", s.videochan])
  else if s.platform = "darwin" then
    Except.ok (vid1 ++ ["-i", "0:0"])
  else Except.ok vid1

/-- `Stream.webcam`: camera input flags. -/
def webcam (s : Stream) : List String :=
  ["-f", s.hcam, "-r", pyOStr s.fps, "-i", s.videochan]

/-- `Stream.videostream`: dispatch the input flags on the source kind
(unknown kind raises ValueError), then the output flags: codec and
pixel format, `-tune stillimage` for an image, else preset, bitrate
and GOP. -/
def videostream (s : Stream) : Except String (List String × List String) :=
  Except.bind
    (if s.vidsource = "screen" then screengrab s
     else if s.vidsource = "camera" then Except.ok (webcam s)
     else if s.vidsource = "file" then filein s
     else Except.error ("ValueError: unknown vidsource " ++ s.vidsource))
    (fun vid1 =>
      let vid2 := ["-c:v", "libx264", "-pix_fmt", "yuv420p"]
      let vid2 :=
        if !falsyStr s.image then vid2 ++ ["-tune", "stillimage"]
        else
          let fps := match s.fps with | some f => f | none => 30
          vid2 ++ ["-preset", s.preset,
                   "-b:v", pyOStr s.video_kbps ++ "k",
                   "-g", toString (s.keyframe_sec * fps)]
      Except.ok (vid1, vid2))

/-- `Stream.buffer`: `-threads 0`; then for motion video `-maxrate`
at 1x and `-bufsize` at 2x the resolved bitrate (an unresolved
`video_kbps` is Python's TypeError on `2*None`), or `-shortest` for a
still image; then the output container (`null` for the `-` sentinel,
else `flv`). -/
def buffer (s : Stream) (server : String) : Except String (List String) :=
  let buf := ["-threads", "0"]
  if !falsyStr s.image then
    let buf := buf ++ ["-shortest"]
    Except.ok (if server = "-" then buf ++ ["-f", "null"]
               else buf ++ ["-f", "flv"])
  else
    match s.video_kbps with
    | none => Except.error "TypeError: unsupported operand for NoneType"
    | some v =>
      let buf := buf ++ ["-maxrate", toString v ++ "k",
                         "-bufsize", toString (2 * v) ++ "k"]
      Except.ok (if server = "-" then buf ++ ["-f", "null"]
                 else buf ++ ["-f", "flv"])

/-- The per-site configuration values that the video-source dispatch
of `Stream.osparam` (stream.py lines 60-75) reads: camera and screen
settings come from the config file, file settings from the external
probe (which may fail to report them). -/
structure SiteConfig where
  webcam_res : Int × Int
  webcam_fps : Int
  screencap_res : Int × Int
  screencap_fps : Int
  screencap_origin : String × String
  file_res : Option (Int × Int)
  file_fps : Option Int
  deriving DecidableEq, Repr

/-- The video-source dispatch of `Stream.osparam`: populate
`(res, fps, origin)` from the source kind, raising ValueError for an
unrecognized kind. -/
def osparamSource (vidsource : String) (c : SiteConfig) :
    Except String (Option (Int × Int) × Option Int × Option (String × String)) :=
  if vidsource = "camera" then
    Except.ok (some c.webcam_res, some c.webcam_fps, none)
  else if vidsource = "screen" then
    Except.ok (some c.screencap_res, some c.screencap_fps,
               some c.screencap_origin)
  else if vidsource = "file" then
    Except.ok (c.file_res, c.file_fps, none)
  else Except.error ("ValueError: unknown video source " ++ vidsource)

/-- Python comparison `a < b` on optional ints: comparing `None` with
an int raises TypeError. -/
def pyLtOpt : Option Int → Option Int → Except String Bool
  | some a, some b => Except.ok (a < b)
  | _, _ => Except.error "TypeError: < not supported with NoneType"

/-- The fold performed by `min(range(len(vid_bw)), key=vid_bw.__getitem__)`:
scan the remaining values at index `i`, keeping the first index `bi`
of the strictly least value `bv` seen so far. -/
def argminAuxE : List (Option Int) → Nat → Nat → Option Int →
    Except String Nat
  | [], _, bi, _ => Except.ok bi
  | v :: vs, i, bi, bv =>
    match pyLtOpt v bv with
    | Except.error e => Except.error e
    | Except.ok b =>
      if b then argminAuxE vs (i + 1) i v
      else argminAuxE vs (i + 1) bi bv

/-- `unify_streams`: `None` for an empty collection, else the index of
the stream with the least `video_kbps` (first index on ties). -/
def unify_streams (streams : List Stream) : Except String (Option Nat) :=
  match streams.map (fun s => s.video_kbps) with
  | [] => Except.ok none
  | v :: vs => Except.map some (argminAuxE vs 1 0 v)

/-- The pure counterpart of `argminAuxE` over ints (no `None` in
sight), used to state and prove the reconciler's contract. -/
def argminAux : List Int → Nat → Nat → Int → Nat
  | [], _, bi, _ => bi
  | v :: vs, i, bi, bv =>
    if v < bv then argminAux vs (i + 1) i v
    else argminAux vs (i + 1) bi bv

/-- The condition under which `video_bitrate` consults `BR30`:
`self.fps is None or self.fps <= 30`. -/
def usesBR30 (s : Stream) : Prop :=
  s.fps = none ∨ ∃ f, s.fps = some f ∧ f ≤ 30

/-- The condition under which `video_bitrate` consults `BR60`:
a frame rate above 30. -/
def usesBR60 (s : Stream) : Prop :=
  ∃ f, s.fps = some f ∧ 30 < f

/-- A plan with every field at its blandest value; concrete witnesses
are built from it by record update. -/
def baseStream : Stream where
  vidsource := "camera"
  image := none
  loop := false
  infn := none
  res := none
  fps := none
  video_kbps := none
  audio_bps := ""
  audiofs := "44100"
  acap := none
  audiochan := none
  preset := "veryfast"
  keyframe_sec := 2
  vcap := "v4l2"
  hcam := "v4l2"
  videochan := "/dev/video0"
  origin := none
  platform := "linux"

/-- A 30 fps plan whose height 500 sits strictly between the `BR30`
keys 480 and 540. -/
def exC1 : Stream := { baseStream with res := some (1920, 500), fps := some 30 }

/-- A 30 fps plan whose height 2161 exceeds every `BR30` key. -/
def plan2161 : Stream :=
  { baseStream with res := some (3840, 2161), fps := some 30 }

/-- A plan whose configuration supplies the explicit override
`video_kbps = 0` (present in the config file, but falsy in Python). -/
def planZeroOverride : Stream :=
  { baseStream with video_kbps := some 0, res := some (960, 540),
                    fps := some 30 }

/-- A concrete site configuration for witnesses. -/
def exConfig : SiteConfig where
  webcam_res := (1280, 720)
  webcam_fps := 30
  screencap_res := (1920, 1080)
  screencap_fps := 30
  screencap_origin := ("0", "0")
  file_res := none
  file_fps := none

/-- A plan with the given resolved bitrate, for reconciler examples. -/
def planKbps (v : Int) : Stream := { baseStream with video_kbps := some v }

/-! ## Helper lemmas -/

lemma video_bitrate_table30 (s : Stream) (w x : Int)
    (h0 : s.video_kbps = none) (h1 : s.res = some (w, x))
    (h2 : usesBR30 s) :
    video_bitrate s = match lookupBR BR30 x with
      | none => Except.error "IndexError: list index out of range"
      | some v => Except.ok { s with video_kbps := some v } := by
  rcases h2 with hf | ⟨f, hf, hle⟩
  · simp [video_bitrate, truthyInt, h0, h1, hf]
  · simp [video_bitrate, truthyInt, h0, h1, hf, hle]

lemma video_bitrate_table60 (s : Stream) (w x : Int)
    (h0 : s.video_kbps = none) (h1 : s.res = some (w, x))
    (h2 : usesBR60 s) :
    video_bitrate s = match lookupBR BR60 x with
      | none => Except.error "IndexError: list index out of range"
      | some v => Except.ok { s with video_kbps := some v } := by
  obtain ⟨f, hf, hlt⟩ := h2
  simp [video_bitrate, truthyInt, h0, h1, hf, not_le.2 hlt]

lemma lookupBR30_exact : ∀ kv ∈ BR30, lookupBR BR30 kv.1 = some kv.2 := by
  decide

lemma lookupBR60_exact : ∀ kv ∈ BR60, lookupBR BR60 kv.1 = some kv.2 := by
  decide

lemma lookupBR30_between (i : Nat) (k₁ v₁ k₂ v₂ x : Int)
    (h1 : BR30[i]? = some (k₁, v₁)) (h2 : BR30[i + 1]? = some (k₂, v₂))
    (hx1 : k₁ < x) (hx2 : x < k₂) : lookupBR BR30 x = some v₂ := by
  have hlen : i + 1 < BR30.length := (List.getElem?_eq_some.1 h2).1
  have hi : i < 7 := by
    simp only [BR30, List.length] at hlen
    omega
  interval_cases i <;>
    simp only [BR30, List.getElem?_cons_zero, List.getElem?_cons_succ,
               Option.some.injEq, Prod.mk.injEq] at h1 h2 <;>
    obtain ⟨rfl, rfl⟩ := h1 <;> obtain ⟨rfl, rfl⟩ := h2 <;>
    simp only [lookupBR, BR30, List.map, bisect_left] <;>
    split_ifs <;> first | rfl | (exfalso; omega)

lemma lookupBR60_between (i : Nat) (k₁ v₁ k₂ v₂ x : Int)
    (h1 : BR60[i]? = some (k₁, v₁)) (h2 : BR60[i + 1]? = some (k₂, v₂))
    (hx1 : k₁ < x) (hx2 : x < k₂) : lookupBR BR60 x = some v₂ := by
  have hlen : i + 1 < BR60.length := (List.getElem?_eq_some.1 h2).1
  have hi : i < 3 := by
    simp only [BR60, List.length] at hlen
    omega
  interval_cases i <;>
    simp only [BR60, List.getElem?_cons_zero, List.getElem?_cons_succ,
               Option.some.injEq, Prod.mk.injEq] at h1 h2 <;>
    obtain ⟨rfl, rfl⟩ := h1 <;> obtain ⟨rfl, rfl⟩ := h2 <;>
    simp only [lookupBR, BR60, List.map, bisect_left] <;>
    split_ifs <;> first | rfl | (exfalso; omega)

lemma lookupBR30_overflow (x : Int) (hx : 2160 < x) :
    lookupBR BR30 x = none := by
  simp only [lookupBR, BR30, List.map, bisect_left]
  split_ifs <;> first | rfl | (exfalso; omega)

lemma lookupBR60_overflow (x : Int) (hx : 2160 < x) :
    lookupBR BR60 x = none := by
  simp only [lookupBR, BR60, List.map, bisect_left]
  split_ifs <;> first | rfl | (exfalso; omega)

lemma lookupBR30_ne_zero (x v : Int) (h : lookupBR BR30 x = some v) :
    v ≠ 0 := by
  have hmem : v ∈ BR30.map Prod.snd := List.getElem?_mem h
  have hall : ∀ u ∈ BR30.map Prod.snd, u ≠ 0 := by decide
  exact hall v hmem

lemma lookupBR60_ne_zero (x v : Int) (h : lookupBR BR60 x = some v) :
    v ≠ 0 := by
  have hmem : v ∈ BR60.map Prod.snd := List.getElem?_mem h
  have hall : ∀ u ∈ BR60.map Prod.snd, u ≠ 0 := by decide
  exact hall v hmem

/-! ## Claim theorems -/

/-- Claim C1: on a plan with no override, for every height that is an
exact key of the selected bitrate table the selector fills in exactly
that key's bitrate; for every height strictly between two adjacent
table keys it fills in the bitrate of the next-higher key
(left-bisect semantics); in particular height 500 with the ≤30 fps
table yields 800. -/
theorem C1_bitrate_exact_and_between :
    (∀ kv ∈ BR30, ∀ (s : Stream) (w : Int), s.video_kbps = none →
        s.res = some (w, kv.1) → usesBR30 s →
        video_bitrate s = Except.ok { s with video_kbps := some kv.2 }) ∧
    (∀ kv ∈ BR60, ∀ (s : Stream) (w : Int), s.video_kbps = none →
        s.res = some (w, kv.1) → usesBR60 s →
        video_bitrate s = Except.ok { s with video_kbps := some kv.2 }) ∧
    (∀ (i : Nat) (k₁ v₁ k₂ v₂ x : Int), BR30[i]? = some (k₁, v₁) →
        BR30[i + 1]? = some (k₂, v₂) → k₁ < x → x < k₂ →
        ∀ (s : Stream) (w : Int), s.video_kbps = none →
        s.res = some (w, x) → usesBR30 s →
        video_bitrate s = Except.ok { s with video_kbps := some v₂ }) ∧
    (∀ (i : Nat) (k₁ v₁ k₂ v₂ x : Int), BR60[i]? = some (k₁, v₁) →
        BR60[i + 1]? = some (k₂, v₂) → k₁ < x → x < k₂ →
        ∀ (s : Stream) (w : Int), s.video_kbps = none →
        s.res = some (w, x) → usesBR60 s →
        video_bitrate s = Except.ok { s with video_kbps := some v₂ }) ∧
    (∀ (s : Stream) (w : Int), s.video_kbps = none →
        s.res = some (w, 500) → usesBR30 s →
        video_bitrate s = Except.ok { s with video_kbps := some 800 }) := by
  refine ⟨?_, ?_, ?_, ?_, ?_⟩
  · intro kv hkv s w h0 h1 h2
    rw [video_bitrate_table30 s w kv.1 h0 h1 h2, lookupBR30_exact kv hkv]
  · intro kv hkv s w h0 h1 h2
    rw [video_bitrate_table60 s w kv.1 h0 h1 h2, lookupBR60_exact kv hkv]
  · intro i k₁ v₁ k₂ v₂ x hi1 hi2 hx1 hx2 s w h0 h1 h2
    rw [video_bitrate_table30 s w x h0 h1 h2,
        lookupBR30_between i k₁ v₁ k₂ v₂ x hi1 hi2 hx1 hx2]
  · intro i k₁ v₁ k₂ v₂ x hi1 hi2 hx1 hx2 s w h0 h1 h2
    rw [video_bitrate_table60 s w x h0 h1 h2,
        lookupBR60_between i k₁ v₁ k₂ v₂ x hi1 hi2 hx1 hx2]
  · intro s w h0 h1 h2
    rw [video_bitrate_table30 s w 500 h0 h1 h2]
    rw [show lookupBR BR30 500 = some 800 from by decide]

/-- Witness for C1: the concrete plan `exC1` (height 500 at 30 fps,
no override) resolves to 800 kbps. -/
theorem C1_witness :
    exC1.video_kbps = none ∧ exC1.res = some (1920, 500) ∧
    usesBR30 exC1 ∧
    video_bitrate exC1 = Except.ok { exC1 with video_kbps := some 800 } :=
  ⟨rfl, rfl, Or.inr ⟨30, rfl, by norm_num⟩,
   C1_bitrate_exact_and_between.2.2.2.2 exC1 1920 rfl rfl
     (Or.inr ⟨30, rfl, by norm_num⟩)⟩

/-- Claim C2 counterexample: at height 2161 (above every `BR30` key,
at 30 fps, no override) the selector raises IndexError; it does not
resolve to the highest tier's bitrate 13000. -/
theorem C2_counterexample :
    plan2161.video_kbps = none ∧ plan2161.fps = some 30 ∧
    plan2161.res = some (3840, 2161) ∧
    video_bitrate plan2161 =
      Except.error "IndexError: list index out of range" ∧
    video_bitrate plan2161 ≠
      Except.ok { plan2161 with video_kbps := some 13000 } := by
  refine ⟨rfl, rfl, rfl, rfl, fun h => ?_⟩
  rw [show video_bitrate plan2161 =
        Except.error "IndexError: list index out of range" from rfl] at h
  exact Except.noConfusion h

/-- Claim C2 as amended: for every requested height strictly greater
than the largest key (2160) of the selected bitrate table, the
selector fails with an index-out-of-range error instead of producing
a bitrate. -/
theorem C2_amended_overflow_errors :
    ∀ (s : Stream) (w x : Int), s.video_kbps = none →
      s.res = some (w, x) → 2160 < x → (usesBR30 s ∨ usesBR60 s) →
      video_bitrate s =
        Except.error "IndexError: list index out of range" := by
  intro s w x h0 h1 hx h2
  rcases h2 with h2 | h2
  · rw [video_bitrate_table30 s w x h0 h1 h2, lookupBR30_overflow x hx]
  · rw [video_bitrate_table60 s w x h0 h1 h2, lookupBR60_overflow x hx]

/-- Witness for the amended C2: the concrete plan at height 2161 and
30 fps fails with IndexError. -/
theorem C2_amended_witness :
    video_bitrate plan2161 =
      Except.error "IndexError: list index out of range" :=
  C2_amended_overflow_errors plan2161 3840 2161 rfl rfl (by norm_num)
    (Or.inl (Or.inr ⟨30, rfl, by norm_num⟩))

/-- Claim C3: with no override, the selector uses `BR30` when the
frame rate is unset or ≤ 30 and `BR60` when it is > 30; in
particular 60 fps at height 1080 resolves to 4500, not 3000. -/
theorem C3_table_selection :
    (∀ (s : Stream) (w x : Int), s.video_kbps = none →
        s.res = some (w, x) → usesBR30 s →
        video_bitrate s = match lookupBR BR30 x with
          | none => Except.error "IndexError: list index out of range"
          | some v => Except.ok { s with video_kbps := some v }) ∧
    (∀ (s : Stream) (w x : Int), s.video_kbps = none →
        s.res = some (w, x) → usesBR60 s →
        video_bitrate s = match lookupBR BR60 x with
          | none => Except.error "IndexError: list index out of range"
          | some v => Except.ok { s with video_kbps := some v }) ∧
    (∀ (s : Stream) (w : Int), s.video_kbps = none →
        s.res = some (w, 1080) → s.fps = some 60 →
        video_bitrate s = Except.ok { s with video_kbps := some 4500 }) := by
  refine ⟨video_bitrate_table30, video_bitrate_table60, ?_⟩
  intro s w h0 h1 hf
  rw [video_bitrate_table60 s w 1080 h0 h1 ⟨60, hf, by norm_num⟩]
  rw [show lookupBR BR60 1080 = some 4500 from by decide]

/-- Witness for C3: a concrete 60 fps, 1080-height plan resolves to
4500 kbps. -/
theorem C3_witness :
    video_bitrate { baseStream with res := some (1920, 1080),
                                    fps := some 60 } =
      Except.ok { baseStream with res := some (1920, 1080),
                                  fps := some 60,
                                  video_kbps := some 4500 } :=
  C3_table_selection.2.2
    { baseStream with res := some (1920, 1080), fps := some 60 }
    1920 rfl rfl rfl

/-- Claim C4 counterexample: the configuration override
`video_kbps = 0` is falsy in Python, so the selection step does not
skip the table lookup: the resolved bitrate becomes 800, not the
override 0. -/
theorem C4_counterexample :
    planZeroOverride.video_kbps = some 0 ∧
    video_bitrate planZeroOverride =
      Except.ok { planZeroOverride with video_kbps := some 800 } ∧
    Except.map Stream.video_kbps (video_bitrate planZeroOverride) ≠
      Except.ok (some 0) := by
  refine ⟨rfl, rfl, fun h => ?_⟩
  rw [show Except.map Stream.video_kbps (video_bitrate planZeroOverride) =
        Except.ok (some 800) from rfl] at h
  have h8 : (some 800 : Option Int) = some 0 := Except.ok.inj h
  exact absurd (Option.some.inj h8) (by norm_num)

/-- Claim C4 as amended: for every plan whose configuration supplies
a nonzero explicit video-bitrate override, the bitrate-selection step
returns the plan unchanged (the table lookup is skipped), so the
resolved `video_kbps` equals the override regardless of resolution
and frame rate. -/
theorem C4_amended_nonzero_override :
    ∀ (s : Stream) (v : Int), s.video_kbps = some v → v ≠ 0 →
      video_bitrate s = Except.ok s := by
  intro s v h hv
  simp [video_bitrate, truthyInt, h, hv]

/-- Witness for the amended C4: a plan with override 2500 is left
unchanged. -/
theorem C4_amended_witness :
    video_bitrate { baseStream with video_kbps := some 2500,
                                    res := some (1920, 1080),
                                    fps := some 60 } =
      Except.ok { baseStream with video_kbps := some 2500,
                                  res := some (1920, 1080),
                                  fps := some 60 } :=
  C4_amended_nonzero_override
    { baseStream with video_kbps := some 2500,
                      res := some (1920, 1080), fps := some 60 }
    2500 rfl (by norm_num)

/-- Claim C5: with audio bitrate, capture format and channel all set
(truthy) and a non-file video source, audio-input assembly returns
exactly `['-f', acap, '-i', audiochan]`; if any of the three is
unset, or the source is a file, it returns `[]`. -/
theorem C5_audiostream :
    (∀ (s : Stream) (a c : String), s.audio_bps ≠ "" → s.acap = some a →
        a ≠ "" → s.audiochan = some c → c ≠ "" → s.vidsource ≠ "file" →
        audiostream s = ["-f", a, "-i", c]) ∧
    (∀ s : Stream, s.audio_bps = "" → audiostream s = []) ∧
    (∀ s : Stream, falsyStr s.acap = true → audiostream s = []) ∧
    (∀ s : Stream, falsyStr s.audiochan = true → audiostream s = []) ∧
    (∀ s : Stream, s.vidsource = "file" → audiostream s = []) := by
  refine ⟨?_, ?_, ?_, ?_, ?_⟩
  · intro s a c hb ha ha' hc hc' hv
    simp [audiostream, falsyStr, hb, ha, ha', hc, hc', hv]
  · intro s h
    simp [audiostream, h]
  · intro s h
    simp [audiostream, h]
  · intro s h
    simp [audiostream, h]
  · intro s h
    unfold audiostream
    split
    · rfl
    · simp [h]

/-- Witness for C5: a concrete camera plan with all audio settings
set produces the four tokens. -/
theorem C5_witness :
    audiostream { baseStream with audio_bps := "128k",
                                  acap := some "pulse",
                                  audiochan := some "default" } =
      ["-f", "pulse", "-i", "default"] :=
  C5_audiostream.1
    { baseStream with audio_bps := "128k", acap := some "pulse",
                      audiochan := some "default" }
    "pulse" "default" (by decide) rfl (by decide) rfl (by decide)
    (by decide)

/-- Claim C6: a still-image plan's buffer fragment contains the
stop-at-shortest flag and no rate-cap or buffer-size flags; a
motion-video plan's buffer fragment carries `-maxrate` at 1x and
`-bufsize` at 2x the resolved bitrate, e.g. 3000 ↦ maxrate 3000k and
bufsize 6000k. -/
theorem C6_buffer :
    (∀ (s : Stream) (server : String), falsyStr s.image = false →
        ∃ l, buffer s server = Except.ok l ∧ "-shortest" ∈ l ∧
          "-maxrate" ∉ l ∧ "-bufsize" ∉ l) ∧
    (∀ (s : Stream) (server : String) (v : Int), falsyStr s.image = true →
        s.video_kbps = some v →
        buffer s server = Except.ok
          (["-threads", "0", "-maxrate", toString v ++ "k",
            "-bufsize", toString (2 * v) ++ "k"] ++
           (if server = "-" then ["-f", "null"] else ["-f", "flv"]))) ∧
    (∀ (s : Stream) (server : String), falsyStr s.image = true →
        s.video_kbps = some 3000 →
        buffer s server = Except.ok
          (["-threads", "0", "-maxrate", "3000k", "-bufsize", "6000k"] ++
           (if server = "-" then ["-f", "null"] else ["-f", "flv"]))) := by
  have hmotion : ∀ (s : Stream) (server : String) (v : Int),
      falsyStr s.image = true → s.video_kbps = some v →
      buffer s server = Except.ok
        (["-threads", "0", "-maxrate", toString v ++ "k",
          "-bufsize", toString (2 * v) ++ "k"] ++
         (if server = "-" then ["-f", "null"] else ["-f", "flv"])) := by
    intro s server v h hv
    simp [buffer, h, hv]
    split_ifs <;> rfl
  refine ⟨?_, hmotion, ?_⟩
  · intro s server h
    refine ⟨["-threads", "0", "-shortest"] ++
              (if server = "-" then ["-f", "null"] else ["-f", "flv"]),
            ?_, ?_, ?_, ?_⟩
    · simp [buffer, h]
      split_ifs <;> rfl
    · simp
    · split_ifs <;> decide
    · split_ifs <;> decide
  · intro s server h hv
    exact hmotion s server 3000 h hv

/-- Witness for C6: the motion-video plan with resolved bitrate 3000
gets maxrate 3000k and bufsize 6000k. -/
theorem C6_witness :
    buffer (planKbps 3000) "rtmp://live" =
      Except.ok (["-threads", "0", "-maxrate", "3000k",
                  "-bufsize", "6000k"] ++
        (if "rtmp://live" = "-" then ["-f", "null"] else ["-f", "flv"])) :=
  C6_buffer.2.2 (planKbps 3000) "rtmp://live" rfl rfl

/-- Claim C8: a file-source plan with `loop = true` and no still
image assembles exactly `['-re', '-stream_loop', '-1', '-i', path]`:
the real-time pacing flag precedes the infinite-loop flag and the
media path is the final input token. -/
theorem C8_filein_loop :
    ∀ (s : Stream) (fn : String), s.infn = some fn → s.loop = true →
      falsyStr s.image = true →
      filein s = Except.ok ["-re", "-stream_loop", "-1", "-i", fn] := by
  intro s fn h1 h2 h3
  simp [filein, h1, h2, h3]

/-- Witness for C8: a concrete looping file plan. -/
theorem C8_witness :
    filein { baseStream with vidsource := "file", loop := true,
                             infn := some "movie.avi" } =
      Except.ok ["-re", "-stream_loop", "-1", "-i", "movie.avi"] :=
  C8_filein_loop
    { baseStream with vidsource := "file", loop := true,
                      infn := some "movie.avi" }
    "movie.avi" rfl rfl rfl

/-- Claim C9: for every video-source kind outside
{camera, screen, file}, both the configuration-resolution dispatch
and video-stream assembly fail with a ValueError and produce no
fragment. -/
theorem C9_unknown_source_fatal :
    ∀ src : String, src ≠ "camera" → src ≠ "screen" → src ≠ "file" →
      (∀ c : SiteConfig, osparamSource src c =
        Except.error ("ValueError: unknown video source " ++ src)) ∧
      (∀ s : Stream, s.vidsource = src →
        videostream s =
          Except.error ("ValueError: unknown vidsource " ++ src)) := by
  intro src h1 h2 h3
  constructor
  · intro c
    simp [osparamSource, h1, h2, h3]
  · intro s hs
    simp [videostream, hs, h1, h2, h3, Except.bind]

lemma argminAuxE_map_some (vs : List Int) :
    ∀ (i bi : Nat) (bv : Int),
      argminAuxE (vs.map some) i bi (some bv) =
        Except.ok (argminAux vs i bi bv) := by
  induction vs with
  | nil => intro i bi bv; rfl
  | cons v vs ih =>
    intro i bi bv
    simp only [List.map, argminAuxE, argminAux, pyLtOpt]
    by_cases hv : v < bv <;> simp [hv, ih]

lemma argminAux_spec (vs : List Int) :
    ∀ (pre : List Int) (bi : Nat) (bv : Int),
      bi < pre.length → pre[bi]? = some bv →
      (∀ j, j < bi → ∀ x, pre[j]? = some x → bv < x) →
      (∀ x ∈ pre, bv ≤ x) →
      argminAux vs pre.length bi bv < (pre ++ vs).length ∧
      ∃ m, (pre ++ vs)[argminAux vs pre.length bi bv]? = some m ∧
        (∀ x ∈ pre ++ vs, m ≤ x) ∧
        (∀ j, j < argminAux vs pre.length bi bv → ∀ x,
          (pre ++ vs)[j]? = some x → m < x) := by
  induction vs with
  | nil =>
    intro pre bi bv hbi hget hlt hle
    simp only [argminAux, List.append_nil]
    exact ⟨hbi, bv, hget, hle, hlt⟩
  | cons v vs ih =>
    intro pre bi bv hbi hget hlt hle
    have hconcat : pre ++ v :: vs = (pre ++ [v]) ++ vs := by simp
    have hlen : (pre ++ [v]).length = pre.length + 1 := by simp
    by_cases hv : v < bv
    · have h1 : pre.length < (pre ++ [v]).length := by simp
      have h2 : (pre ++ [v])[pre.length]? = some v :=
        List.getElem?_concat_length pre v
      have h3 : ∀ j, j < pre.length → ∀ x, (pre ++ [v])[j]? = some x →
          v < x := by
        intro j hj x hx
        rw [List.getElem?_append, if_pos hj] at hx
        exact lt_of_lt_of_le hv (hle x (List.getElem?_mem hx))
      have h4 : ∀ x ∈ pre ++ [v], v ≤ x := by
        intro x hx
        rcases List.mem_append.1 hx with hx | hx
        · exact le_of_lt (lt_of_lt_of_le hv (hle x hx))
        · rw [List.mem_singleton.1 hx]
      have := ih (pre ++ [v]) pre.length v h1 h2 h3 h4
      rw [hconcat]
      simp only [argminAux, if_pos hv]
      simpa only [List.length_append, List.length_cons,
        List.length_nil] using this
    · have h1 : bi < (pre ++ [v]).length := by simp; omega
      have h2 : (pre ++ [v])[bi]? = some bv := by
        rw [List.getElem?_append, if_pos hbi]; exact hget
      have h3 : ∀ j, j < bi → ∀ x, (pre ++ [v])[j]? = some x →
          bv < x := by
        intro j hj x hx
        rw [List.getElem?_append, if_pos (lt_trans hj hbi)] at hx
        exact hlt j hj x hx
      have h4 : ∀ x ∈ pre ++ [v], bv ≤ x := by
        intro x hx
        rcases List.mem_append.1 hx with hx | hx
        · exact hle x hx
        · rw [List.mem_singleton.1 hx]; exact not_lt.1 hv
      have := ih (pre ++ [v]) bi bv h1 h2 h3 h4
      rw [hconcat]
      simp only [argminAux, if_neg hv]
      simpa only [List.length_append, List.length_cons,
        List.length_nil] using this

lemma argminAux_start (v : Int) (vs : List Int) :
    argminAux vs 1 0 v < (v :: vs).length ∧
    ∃ m, (v :: vs)[argminAux vs 1 0 v]? = some m ∧
      (∀ x ∈ v :: vs, m ≤ x) ∧
      (∀ j, j < argminAux vs 1 0 v → ∀ x, (v :: vs)[j]? = some x →
        m < x) := by
  have h := argminAux_spec vs [v] 0 v (by simp) (by simp)
    (by intro j hj; omega) (by simp)
  simpa using h

/-- Claim C7: the reconciler returns `None` on an empty collection;
on a bitrate-resolved nonempty collection it returns the least index
of a minimal-bitrate plan (leftmost on ties); in particular bitrates
[4500, 3000, 6000] give index 1 and [3000, 3000] give index 0. -/
theorem C7_unify_streams :
    (∀ streams : List Stream, streams = [] →
        unify_streams streams = Except.ok none) ∧
    (∀ (streams : List Stream) (vals : List Int),
        streams.map (fun s => s.video_kbps) = vals.map some →
        streams ≠ [] →
        ∃ k m, unify_streams streams = Except.ok (some k) ∧
          vals[k]? = some m ∧ (∀ x ∈ vals, m ≤ x) ∧
          (∀ j, j < k → ∀ x, vals[j]? = some x → m < x)) ∧
    unify_streams [planKbps 4500, planKbps 3000, planKbps 6000] =
      Except.ok (some 1) ∧
    unify_streams [planKbps 3000, planKbps 3000] = Except.ok (some 0) := by
  refine ⟨?_, ?_, rfl, rfl⟩
  · intro streams h
    rw [h]
    rfl
  · intro streams vals hmap hne
    cases streams with
    | nil => exact absurd rfl hne
    | cons s ss =>
      cases vals with
      | nil => simp at hmap
      | cons v vs =>
        simp only [List.map, List.cons.injEq] at hmap
        obtain ⟨hv, hvs⟩ := hmap
        have hunify : unify_streams (s :: ss) =
            Except.ok (some (argminAux vs 1 0 v)) := by
          show Except.map some
            (argminAuxE (ss.map (fun s => s.video_kbps)) 1 0
              s.video_kbps) = _
          rw [hv, hvs, argminAuxE_map_some]
          rfl
        obtain ⟨hk, m, hm, hmin, hleft⟩ := argminAux_start v vs
        exact ⟨argminAux vs 1 0 v, m, hunify, hm, hmin, hleft⟩

/-- Witness for C7: the concrete collection with bitrates
[4500, 3000, 6000] selects index 1, which holds the minimum 3000. -/
theorem C7_witness :
    ∃ k m, unify_streams [planKbps 4500, planKbps 3000, planKbps 6000] =
        Except.ok (some k) ∧
      ([4500, 3000, 6000] : List Int)[k]? = some m ∧
      (∀ x ∈ ([4500, 3000, 6000] : List Int), m ≤ x) ∧
      (∀ j, j < k → ∀ x, ([4500, 3000, 6000] : List Int)[j]? = some x →
        m < x) :=
  C7_unify_streams.2.1 [planKbps 4500, planKbps 3000, planKbps 6000]
    [4500, 3000, 6000] rfl (by decide)

/-- Claim C10: bitrate selection is idempotent — whenever it succeeds
it fills `video_kbps` with a nonzero table value (or keeps a truthy
override), so a second run takes the override path and leaves the
plan unchanged. -/
theorem C10_video_bitrate_idempotent :
    ∀ s t : Stream, video_bitrate s = Except.ok t →
      video_bitrate t = Except.ok t := by
  intro s t h
  unfold video_bitrate at h
  by_cases hk : truthyInt s.video_kbps
  · rw [if_pos hk] at h
    obtain rfl : s = t := Except.ok.inj h
    unfold video_bitrate
    rw [if_pos hk]
  · rw [if_neg hk] at h
    rcases hox : (match s.res with
                  | some r => some r.2
                  | none => if s.vidsource = "file" then some 720
                            else none) with _ | x
    · rw [hox] at h
      exact absurd h (by simp)
    · rw [hox] at h
      have htbl : (match s.fps with
                   | none => BR30
                   | some f => if f ≤ 30 then BR30 else BR60) = BR30 ∨
          (match s.fps with
           | none => BR30
           | some f => if f ≤ 30 then BR30 else BR60) = BR60 := by
        rcases s.fps with _ | f
        · exact Or.inl rfl
        · by_cases hf : f ≤ 30 <;> simp [hf]
      rcases htbl with htbl | htbl <;> rw [htbl] at h <;> dsimp only at h
      · rcases hv : lookupBR BR30 x with _ | v
        · rw [hv] at h
          exact absurd h (by simp)
        · rw [hv] at h
          obtain rfl : { s with video_kbps := some v } = t :=
            Except.ok.inj h
          have hv0 : v ≠ 0 := lookupBR30_ne_zero x v hv
          unfold video_bitrate
          rw [if_pos (by simp [truthyInt, hv0])]
      · rcases hv : lookupBR BR60 x with _ | v
        · rw [hv] at h
          exact absurd h (by simp)
        · rw [hv] at h
          obtain rfl : { s with video_kbps := some v } = t :=
            Except.ok.inj h
          have hv0 : v ≠ 0 := lookupBR60_ne_zero x v hv
          unfold video_bitrate
          rw [if_pos (by simp [truthyInt, hv0])]

/-- Witness for C10: running the selector on the already-resolved
height-500 plan (bitrate 800) leaves it unchanged. -/
theorem C10_witness :
    video_bitrate { exC1 with video_kbps := some 800 } =
      Except.ok { exC1 with video_kbps := some 800 } :=
  C10_video_bitrate_idempotent exC1 { exC1 with video_kbps := some 800 }
    rfl

/-- Witness for C9: the source kind "webcam" is rejected by both
dispatches. -/
theorem C9_witness :
    osparamSource "webcam" exConfig =
      Except.error "ValueError: unknown video source webcam" ∧
    videostream { baseStream with vidsource := "webcam" } =
      Except.error "ValueError: unknown vidsource webcam" := by
  have h := C9_unknown_source_fatal "webcam" (by decide) (by decide)
    (by decide)
  exact ⟨h.1 exConfig, h.2 { baseStream with vidsource := "webcam" } rfl⟩

end PyLivestream
